import Mathlib

/-!
A shallow embedding of the poem-app request orchestration layer
(`poem-app/services/ollama-service.js` and the Express server in the
repository) together with theorems checking the specification's claims
against it.

Network effects are modelled by explicit outcome values supplied as
arguments: each `fetch` call's result is a value of a small inductive type
(network exception, HTTP error status, or an OK response whose JSON parse
outcome is given directly).  Mutable module-level `Map`s become explicit
association-list states threaded through the functions.  JavaScript
truthiness on the optional string/number fields involved is modelled by
dedicated helpers.
-/

namespace PoemApp

/-- JS truthiness of an optional string field: `undefined`/`null` and the
empty string are falsy, any other string is truthy. -/
def jsTruthyS : Option String → Bool
  | none => false
  | some s => s ≠ ""

/-- JS `a || b` for an optional string `a` against default `b`:
yields the string when it is truthy, otherwise the default. -/
def jsOrS (o : Option String) (d : String) : String :=
  match o with
  | none => d
  | some s => if s = "" then d else s

/-- JS truthiness of an optional numeric field (`!x`): missing fields and
the number `0` are falsy.  (JSON cannot encode `NaN`, so request-body
numbers are modelled as rationals.) -/
def jsFalsyN : Option ℚ → Bool
  | none => true
  | some q => q = 0

/-- JS truthiness test (`!x`) on an optional string: missing or empty is falsy. -/
def jsFalsyStr : Option String → Bool
  | none => true
  | some s => s = ""

/-- Association-list read modelling `Map.prototype.get` (string keys). -/
def mapGet (m : List (String × String)) (k : String) : Option String :=
  match m with
  | [] => none
  | (k', v) :: rest => if k' = k then some v else mapGet rest k

/-- Association-list update modelling `Map.prototype.set`: overwrite the
existing entry for the key, or append a new one. -/
def mapSet (m : List (String × String)) (k v : String) : List (String × String) :=
  match m with
  | [] => [(k, v)]
  | (k', v') :: rest => if k' = k then (k, v) :: rest else (k', v') :: mapSet rest k v

/-- `String.prototype.trim`: strip leading and trailing whitespace.
(JS trims the full Unicode whitespace set; the ASCII whitespace of
`Char.isWhitespace` covers everything this service can receive.) -/
def jsTrim (s : String) : String :=
  String.mk (((s.data.dropWhile Char.isWhitespace).reverse.dropWhile Char.isWhitespace).reverse)

/-! ## ollama-service.js -/

/-- Parsed JSON body of an Ollama `/api/generate` response: the optional
`response` field.  (A JSON value without such a field — including the JSON
literal `null` — is modelled by `response := none`; both hit the
`!data || !data.response` check identically.) -/
structure OllamaData where
  response : Option String
deriving DecidableEq

/-- Outcome of one `fetch` against the generation service:
the fetch threw (network error, carrying the rethrown message), the
response had an error status (`response.ok` false), or the body was read
and its `JSON.parse` outcome is given (`none` models a parse exception). -/
inductive GenFetch where
  | netError (message : String)
  | httpError (status : Nat)
  | okBody (parsed : Option OllamaData)
deriving DecidableEq

/-- `isOllamaAvailable` from `ollama-service.js` (lines 15-51): the probe
is a minimal generate call; any thrown error or non-OK status yields
`false`, otherwise availability is `Boolean(data && data.response)`. -/
def isOllamaAvailable : GenFetch → Bool
  | .netError _ => false
  | .httpError _ => false
  | .okBody none => false
  | .okBody (some data) => jsTruthyS data.response

/-- The literal string returned by `generatePoem` when the availability
probe fails (line 65 of `ollama-service.js`). -/
def unavailableMessage : String :=
  "Sorry, the poem generation service is currently unavailable. Please try again later."

/-- The prompt constructed by `generatePoem` (line 81 of `ollama-service.js`). -/
def buildPrompt (location time date : String) : String :=
  "Write a poem about " ++ location ++ " at " ++ time ++ " on " ++ date ++
    ". The poem should be evocative and reflect the mood of the time and place."

/-- The module-level `poemCache` map of `ollama-service.js`.  (A
`CACHE_TTL` environment value is parsed at module load but never used:
entries live for the process lifetime.) -/
structure GenState where
  poemCache : List (String × String)
deriving DecidableEq

/-- Result of `generatePoem`: a normally returned string, or a thrown
error (the function rethrows every error it catches). -/
inductive GenResult where
  | ok (poem : String)
  | thrown (message : String)
deriving DecidableEq

/-- The network environment one `generatePoem` call runs in: the outcome
the probe fetch would have, and the outcome the real generation fetch
would have. -/
structure GenEnv where
  probe : GenFetch
  gen : GenFetch
deriving DecidableEq

/-- `generatePoem` from `ollama-service.js` (lines 60-132).  Returns the
result, the updated cache state, and the list of prompts actually sent to
the real generation endpoint (empty when that fetch was never issued).
Steps, in source order: availability probe (on failure, return the fixed
unavailable message); cache key `location-time-date` and cache lookup;
on miss, the real fetch: non-OK status throws
`Ollama API returned status: N`, a JSON parse failure throws
`Failed to parse Ollama API response`, a missing/empty `response` field
throws `Unexpected Ollama API response format`; otherwise the trimmed
poem is cached and returned. -/
def generatePoem (env : GenEnv) (st : GenState) (location time date : String) :
    GenResult × GenState × List String :=
  if !isOllamaAvailable env.probe then
    (.ok unavailableMessage, st, [])
  else
    let cacheKey := location ++ "-" ++ time ++ "-" ++ date
    match mapGet st.poemCache cacheKey with
    | some cached => (.ok cached, st, [])
    | none =>
      let prompt := buildPrompt location time date
      match env.gen with
      | .netError msg => (.thrown msg, st, [prompt])
      | .httpError status =>
          (.thrown ("Ollama API returned status: " ++ toString status), st, [prompt])
      | .okBody none => (.thrown "Failed to parse Ollama API response", st, [prompt])
      | .okBody (some data) =>
          if jsTruthyS data.response then
            let poem := jsTrim (data.response.getD "")
            (.ok poem, { poemCache := mapSet st.poemCache cacheKey poem }, [prompt])
          else
            (.thrown "Unexpected Ollama API response format", st, [prompt])

/-- Context information derived from time and date
(`getContextInfo`'s result object; the ISO timestamp field is not
modelled — the `RangeError` that `toISOString` raises on NaN components
is what sends the function to its `null` branch, captured below). -/
structure ContextInfo where
  timeOfDay : String
  season : String
deriving DecidableEq

/-- `generateFallbackPoem` from `ollama-service.js` (lines 142-157): the
deterministic stanza template.  `contextInfo?.timeOfDay || 'moment'` and
`contextInfo?.season || 'season'` supply the placeholders. -/
def generateFallbackPoem (time date location : String)
    (contextInfo : Option ContextInfo) : String :=
  let timeOfDay := jsOrS (contextInfo.map (·.timeOfDay)) "moment"
  let season := jsOrS (contextInfo.map (·.season)) "season"
  "\"A " ++ timeOfDay ++ " in " ++ location ++ "\"\n\nIn this " ++ timeOfDay ++
    " hour, at " ++ time ++ ",\nThe world unfolds in " ++ season ++
    "\x27s prime.\n" ++ location ++ "\x27s beauty, a sight to behold,\nAs " ++
    date ++ "\x27s story begins to unfold.\n\nThe rhythm of time, a gentle beat,\n" ++
    "In this moment, our hearts complete.\nA poem awaits, in future\x27s hand,\n" ++
    "When systems align, as we planned."

/-- `String.prototype.split` with a single-character separator, on the
character list of the string: `"a:b".split(':')` gives the segments
between occurrences of the separator, empty segments included. -/
def splitChars (c : Char) : List Char → List (List Char)
  | [] => [[]]
  | x :: xs =>
    let rest := splitChars c xs
    if x = c then [] :: rest
    else
      match rest with
      | r :: rs => (x :: r) :: rs
      | [] => [[x]]

/-- JS `Number()` conversion as exercised by `getContextInfo`'s
`split(...).map(Number)` components: the empty string converts to `0`,
an all-digit string converts to its value, and a string containing any
other character is treated as yielding `NaN`, modelled by `none`.
(The full JS grammar also accepts signs, decimals, exponents and hex
forms; no such component occurs in the `HH:MM` / `YYYY-MM-DD` positions
this service handles, so they are outside the model.) -/
def jsNumber (s : List Char) : Option Nat :=
  if s.all Char.isDigit then
    some (s.foldl (fun n c => n * 10 + (c.toNat - '0'.toNat)) 0)
  else none

/-- The `timeStr.split(':').map(Number)` destructuring of
`getContextInfo`: the first two components must both be numeric (a
missing second component is `undefined`, whose `Number` is `NaN`). -/
def parseTimeComponents (timeStr : String) : Option (Nat × Nat) :=
  match (splitChars ':' timeStr.data).map jsNumber with
  | some hour :: some minute :: _ => some (hour, minute)
  | _ => none

/-- The `dateStr.split('-').map(Number)` destructuring of
`getContextInfo`: year, month and day must all be numeric. -/
def parseDateComponents (dateStr : String) : Option (Nat × Nat × Nat) :=
  match (splitChars '-' dateStr.data).map jsNumber with
  | some year :: some month :: some day :: _ => some (year, month, day)
  | _ => none

/-- The time-of-day bucket chain of `getContextInfo` (lines 172-181). -/
def timeOfDayOf (hour : Nat) : String :=
  if 5 ≤ hour ∧ hour < 12 then "morning"
  else if 12 ≤ hour ∧ hour < 17 then "afternoon"
  else if 17 ≤ hour ∧ hour < 21 then "evening"
  else "night"

/-- The Northern-hemisphere season band chain of `getContextInfo`
(lines 184-193). -/
def seasonOf (month : Nat) : String :=
  if 3 ≤ month ∧ month ≤ 5 then "spring"
  else if 6 ≤ month ∧ month ≤ 8 then "summer"
  else if 9 ≤ month ∧ month ≤ 11 then "autumn"
  else "winter"

/-- `getContextInfo` from `ollama-service.js` (lines 165-204).  When any
of the five split components is non-numeric, the constructed `Date` is
invalid and `toISOString` raises, so the surrounding `try` returns
`null` — modelled by `none`.  (`Date` overflow for astronomically large
numeric components is not modelled.) -/
def getContextInfo (timeStr dateStr : String) : Option ContextInfo :=
  match parseTimeComponents timeStr, parseDateComponents dateStr with
  | some (hour, _minute), some (_year, month, _day) =>
      some { timeOfDay := timeOfDayOf hour, season := seasonOf month }
  | _, _ => none

/-- Address components of a reverse-geocoding response
(`data.address` fields used by the repository; each may be absent). -/
structure Address where
  city : Option String
  town : Option String
  village : Option String
  county : Option String
  state : Option String
  country : Option String
deriving DecidableEq

/-- Parsed JSON body of a reverse-geocoding response: the optional
`address` object. -/
structure LocationData where
  address : Option Address
deriving DecidableEq

/-- Outcome of one `fetch` against the reverse-geocoding service. -/
inductive GeoFetch where
  | netError
  | httpError (status : Nat)
  | okBody (parsed : Option LocationData)
deriving DecidableEq

/-- The module-level `locationNameCache` map of `ollama-service.js`. -/
structure LocState where
  locationNameCache : List (String × String)
deriving DecidableEq

/-- `Number.prototype.toFixed(2)` on a rational coordinate: round to the
nearest hundredth and print with exactly two decimals.  (The exact JS
tie-breaking on binary doubles is not load-bearing for any claim; only
determinism of the cache key is.) -/
def toFixed2 (q : ℚ) : String :=
  let n : ℤ := round (q * 100)
  let sign := if n < 0 then "-" else ""
  let m := n.natAbs
  sign ++ toString (m / 100) ++ "." ++ (if m % 100 < 10 then "0" else "") ++ toString (m % 100)

/-- `getLocationName` from `ollama-service.js` (lines 217-266): cache key
from coordinates rounded to two decimals; on a cache hit return the
cached name; otherwise fetch, and on any thrown error or non-OK status
(both caught) return `null`.  From a parsed body, the primary name is the
first present of city/town/village/county; `state` (or, when no state,
`country`) is appended with a comma when a primary name exists.  A
non-empty name is cached and returned; otherwise `locationName || null`
returns `null` and nothing is cached. -/
def getLocationName (env : GeoFetch) (st : LocState) (lat lon : ℚ) :
    Option String × LocState :=
  let cacheKey := toFixed2 lat ++ "," ++ toFixed2 lon
  match mapGet st.locationNameCache cacheKey with
  | some cached => (some cached, st)
  | none =>
    match env with
    | .netError => (none, st)
    | .httpError _ => (none, st)
    | .okBody none => (none, st)
    | .okBody (some data) =>
      let locationName :=
        match data.address with
        | none => ""
        | some address =>
          let base :=
            if jsTruthyS address.city then address.city.getD ""
            else if jsTruthyS address.town then address.town.getD ""
            else if jsTruthyS address.village then address.village.getD ""
            else if jsTruthyS address.county then address.county.getD ""
            else ""
          if jsTruthyS address.state ∧ base ≠ "" then
            base ++ ", " ++ address.state.getD ""
          else if jsTruthyS address.country ∧ base ≠ "" then
            base ++ ", " ++ address.country.getD ""
          else base
      if locationName ≠ "" then
        (some locationName, { locationNameCache := mapSet st.locationNameCache cacheKey locationName })
      else
        (none, st)

/-! ## The Express server (`test-ollama.js`, server part) -/

/-- `Array.prototype.join(', ')` on the collected address parts. -/
def joinParts : List String → String
  | [] => ""
  | [p] => p
  | p :: rest => p ++ ", " ++ joinParts rest

/-- `validateCoordinates` from the server (lines 125-135), applied to the
already-numeric values (`parseFloat` of a number is that number; the
`isNaN` guards cannot fire on JSON numbers, which are modelled as
rationals). -/
def validateCoordinates (lat lon : ℚ) : Bool :=
  decide ((-90 ≤ lat ∧ lat ≤ 90) ∧ (-180 ≤ lon ∧ lon ≤ 180))

/-- `validateTime` (line 138): the regex `^([01]\d|2[0-3]):([0-5]\d)$`
spelled out over the five characters. -/
def validateTime (time : String) : Bool :=
  match time.data with
  | [h1, h2, c, m1, m2] =>
    (((h1 == '0' || h1 == '1') && h2.isDigit) ||
      (h1 == '2' && (h2 == '0' || h2 == '1' || h2 == '2' || h2 == '3'))) &&
    c == ':' &&
    (m1 == '0' || m1 == '1' || m1 == '2' || m1 == '3' || m1 == '4' || m1 == '5') &&
    m2.isDigit
  | _ => false

/-- `validateDate` (line 143): the regex `^\d{4}-\d{2}-\d{2}$` spelled out
over the ten characters. -/
def validateDate (date : String) : Bool :=
  match date.data with
  | [y1, y2, y3, y4, s1, m1, m2, s2, d1, d2] =>
    y1.isDigit && y2.isDigit && y3.isDigit && y4.isDigit && s1 == '-' &&
    m1.isDigit && m2.isDigit && s2 == '-' && d1.isDigit && d2.isDigit
  | _ => false

/-- JSON body of `POST /api/poem`: numeric coordinate fields and string
time/date fields, each possibly absent. -/
structure PoemRequestBody where
  latitude : Option ℚ
  longitude : Option ℚ
  time : Option String
  date : Option String
deriving DecidableEq

/-- Outcome of the `validatePoemRequest` middleware: an early
`res.status(400)` response, or `next()` with the (possibly defaulted)
time and date now in the body. -/
inductive ValidateOutcome where
  | reject (status : Nat) (error : String)
  | proceed (time date : String)
deriving DecidableEq

/-- `validatePoemRequest` middleware (lines 102-122).  The guard is
`!latitude || !longitude || !validateCoordinates(latitude, longitude)` —
note JS truthiness makes the coordinate `0` falsy.  Missing or malformed
time/date are replaced by the server's current time/date, passed here as
`nowTime`/`nowDate`. -/
def validatePoemRequest (nowTime nowDate : String) (body : PoemRequestBody) :
    ValidateOutcome :=
  if jsFalsyN body.latitude || jsFalsyN body.longitude ||
      !validateCoordinates (body.latitude.getD 0) (body.longitude.getD 0) then
    .reject 400 "Valid latitude and longitude are required"
  else
    let time := if jsFalsyStr body.time || !validateTime (body.time.getD "") then
        nowTime else body.time.getD ""
    let date := if jsFalsyStr body.date || !validateDate (body.date.getD "") then
        nowDate else body.date.getD ""
    .proceed time date

/-- `formatLocationInfo` from the server (lines 255-281): `null` data or a
missing `address` give the sentinel; otherwise pushed parts are
`city || town || village` (when one is truthy), `state || county` (when
one is truthy), and `country` (when truthy); no parts gives the sentinel. -/
def formatLocationInfo (locationData : Option LocationData) : String :=
  match locationData with
  | none => "unknown location"
  | some ld =>
    match ld.address with
    | none => "unknown location"
    | some address =>
      let parts : List String :=
        (if jsTruthyS address.city || jsTruthyS address.town || jsTruthyS address.village then
          [jsOrS address.city (jsOrS address.town (address.village.getD ""))] else []) ++
        (if jsTruthyS address.state || jsTruthyS address.county then
          [jsOrS address.state (address.county.getD "")] else []) ++
        (if jsTruthyS address.country then [address.country.getD ""] else [])
      if parts.length > 0 then joinParts parts else "unknown location"

/-- `getLocationInfo` from the server (lines 284-302): any thrown error
(network failure, non-OK status, or a `json()` parse failure) is caught
and `null` is returned; otherwise the parsed body is returned. -/
def getLocationInfo : GeoFetch → Option LocationData
  | .netError => none
  | .httpError _ => none
  | .okBody parsed => parsed

/-- Body of an HTTP response produced by the server's API handlers. -/
inductive ApiBody where
  | poemB (poem : String)
  | errorB (error : String)
  | errorDetailsB (error details : String)
  | locationB (locationName : String)
deriving DecidableEq

/-- An HTTP response: status code and JSON body. -/
structure HttpResponse where
  status : Nat
  body : ApiBody
deriving DecidableEq

/-- The `POST /api/poem` handler (lines 148-179) composed with its
validation middleware.  `getLocationInfo` never throws (it catches
internally) and `formatLocationInfo` is total, so `locationInfo` is
always their composition.  A thrown `generatePoem` error reaches the
outer catch and becomes `500` with details; a falsy (empty) poem becomes
`500`; otherwise `200 {poem}`. -/
def poemHandler (nowTime nowDate : String) (body : PoemRequestBody)
    (geo : GeoFetch) (env : GenEnv) (st : GenState) :
    HttpResponse × GenState × List String :=
  match validatePoemRequest nowTime nowDate body with
  | .reject s e => ({ status := s, body := .errorB e }, st, [])
  | .proceed time date =>
    let locationInfo := formatLocationInfo (getLocationInfo geo)
    match generatePoem env st locationInfo time date with
    | (.thrown msg, st', sent) =>
        ({ status := 500, body := .errorDetailsB "Failed to generate poem" msg }, st', sent)
    | (.ok poem, st', sent) =>
      if poem = "" then
        ({ status := 500, body := .errorB "Failed to generate poem" }, st', sent)
      else
        ({ status := 200, body := .poemB poem }, st', sent)

/-- A coordinate taken from the `GET /api/location` query string:
absent or empty (JS-falsy) string, a present string whose `parseFloat`
is `NaN`, or a present string with numeric value `q`. -/
inductive QueryNum where
  | missing
  | nan
  | num (q : ℚ)
deriving DecidableEq

/-- JS `!x` on a query-string coordinate: only a missing/empty string is falsy. -/
def jsFalsyQ : QueryNum → Bool
  | .missing => true
  | _ => false

/-- `validateCoordinates` applied to `parseFloat` of the two query
strings: a `NaN` (or missing) value fails the `isNaN` check. -/
def validateCoordinatesQ : QueryNum → QueryNum → Bool
  | .num lat, .num lon => validateCoordinates lat lon
  | _, _ => false

/-- The `GET /api/location` handler (lines 220-238): the validation guard
`!latitude || !longitude || !validateCoordinates(...)` gives `400`;
otherwise the geocode result is formatted and returned with `200`. -/
def locationHandler (latitude longitude : QueryNum) (geo : GeoFetch) : HttpResponse :=
  if jsFalsyQ latitude || jsFalsyQ longitude || !validateCoordinatesQ latitude longitude then
    { status := 400, body := .errorB "Valid latitude and longitude are required" }
  else
    { status := 200, body := .locationB (formatLocationInfo (getLocationInfo geo)) }

/-! ## Rate limiter -/

/-- JS `x || d` on the `parseInt` of an environment variable
(`parseInt(undefined)` is `NaN`, which is falsy, as is `0`). -/
def jsOrNum (x : Option Nat) (d : Nat) : Nat :=
  match x with
  | none => d
  | some n => if n = 0 then d else n

/-- The limiter's `windowMs` option (line 86):
`parseInt(process.env.RATE_LIMIT_WINDOW_MS) || 60000`. -/
def limiterWindowMs (envWindow : Option String) : Nat :=
  jsOrNum (envWindow.bind String.toNat?) 60000

/-- The limiter's `max` option (line 87):
`parseInt(process.env.RATE_LIMIT_MAX_REQUESTS) || 100`. -/
def limiterMax (envMax : Option String) : Nat :=
  jsOrNum (envMax.bind String.toNat?) 100

/-- Per-client window state of the rate limiter. -/
structure RateState where
  totalHits : Nat
  windowStart : Nat
deriving DecidableEq

/-- Modelled from the spec: the fixed-window counter of the
`express-rate-limit` middleware (the library itself is not part of the
repository sources) — "a fixed window ... capped at a configurable
maximum request count ... per client identity"; the counter resets when
the window elapses, each request increments it, and a request is allowed
exactly when the incremented count does not exceed the cap. -/
def rateLimitStep (windowMs maxReq now : Nat) (st : RateState) : Bool × RateState :=
  let st := if st.windowStart + windowMs ≤ now then
      { totalHits := 0, windowStart := now } else st
  let st := { st with totalHits := st.totalHits + 1 }
  (st.totalHits ≤ maxReq, st)

/-- Run `n` back-to-back requests from one client (all inside one
window, at instant `0`): final window state and the outcome of the
`n`-th request (`true` = allowed through, `false` = `429`). -/
def rateSim (windowMs maxReq : Nat) : Nat → RateState × Bool
  | 0 => ({ totalHits := 0, windowStart := 0 }, true)
  | n + 1 =>
    let (st, _) := rateSim windowMs maxReq n
    let (allowed, st') := rateLimitStep windowMs maxReq 0 st
    (st', allowed)

/-! ## Spec-side place-name rule (for comparison with the source) -/

/-- Modelled from the spec: the place-name rule as claim C6 states it —
"the resolved place name takes the first present of {city, town,
village, county} as the primary name and appends state or, if state is
absent, country, joined by a comma and space". -/
def claimedPlaceName (address : Address) : String :=
  let primary :=
    if jsTruthyS address.city then address.city.getD ""
    else if jsTruthyS address.town then address.town.getD ""
    else if jsTruthyS address.village then address.village.getD ""
    else if jsTruthyS address.county then address.county.getD ""
    else ""
  if jsTruthyS address.state then primary ++ ", " ++ address.state.getD ""
  else if jsTruthyS address.country then primary ++ ", " ++ address.country.getD ""
  else primary

/-- `s` contains `sub` as a contiguous substring. -/
def containsSub (s sub : String) : Prop :=
  ∃ pre post, s = pre ++ (sub ++ post)

/-- An address object none of whose fields used by `formatLocationInfo`
is truthy: no usable name components at all. -/
def geoNoUsableFields (a : Address) : Bool :=
  !(jsTruthyS a.city || jsTruthyS a.town || jsTruthyS a.village ||
    jsTruthyS a.state || jsTruthyS a.county || jsTruthyS a.country)

/-! ## Helper lemmas -/

theorem data_append (a b : String) : (a ++ b).data = a.data ++ b.data := by
  cases a; cases b; rfl

theorem mem_of_containsSub {s sub : String} (h : containsSub s sub) :
    ∀ c ∈ sub.data, c ∈ s.data := by
  obtain ⟨pre, post, rfl⟩ := h
  intro c hc
  rw [data_append, data_append]
  simp only [List.mem_append]
  exact Or.inr (Or.inl hc)

theorem mapGet_mapSet_self (m : List (String × String)) (k v : String) :
    mapGet (mapSet m k v) k = some v := by
  induction m with
  | nil => simp [mapSet, mapGet]
  | cons hd tl ih =>
    by_cases h : hd.1 = k
    · simp [mapSet, mapGet, h]
    · simpa [mapSet, mapGet, h] using ih

theorem mapGet_mem {m : List (String × String)} {k v : String}
    (h : mapGet m k = some v) : (k, v) ∈ m := by
  induction m with
  | nil => simp [mapGet] at h
  | cons hd tl ih =>
    by_cases hk : hd.1 = k
    · simp only [mapGet, hk, if_pos] at h
      obtain rfl := Option.some.inj h
      rw [← hk]
      exact List.mem_cons_self _ _
    · simp only [mapGet, hk, if_neg, not_false_iff] at h
      exact List.mem_cons_of_mem _ (ih h)

theorem jsOrS_of_truthy {o : Option String} (d : String) (h : jsTruthyS o = true) :
    jsOrS o d = o.getD "" := by
  cases o with
  | none => simp [jsTruthyS] at h
  | some s =>
    simp only [jsTruthyS, ne_eq, decide_eq_true_eq] at h
    simp [jsOrS, h]

theorem httpMsg_ne (x b : String) (hb : b.data.head? ≠ some 'O') :
    "Ollama API returned status: " ++ x ≠ b := by
  intro h
  have h1 : ("Ollama API returned status: " ++ x).data.head? = some 'O' := by
    rw [data_append]
    rfl
  rw [h] at h1
  exact hb h1

theorem generatePoem_probe_fail (env : GenEnv) (st : GenState)
    (location time date : String) (h : isOllamaAvailable env.probe = false) :
    generatePoem env st location time date = (.ok unavailableMessage, st, []) := by
  unfold generatePoem
  rw [h]
  rfl

theorem rateSim_state (w m : Nat) (hw : 0 < w) :
    ∀ n, (rateSim w m n).1 = ⟨n, 0⟩ := by
  intro n
  induction n with
  | zero => rfl
  | succ k ih =>
    have hcond : ¬ ((0 : Nat) + w ≤ 0) := by omega
    have hw0 : ¬ (w = 0) := by omega
    simp [rateSim, rateLimitStep, ih, hcond, hw0]

theorem rateSim_outcome (w m : Nat) (hw : 0 < w) (n : Nat) :
    (rateSim w m (n + 1)).2 = decide (n + 1 ≤ m) := by
  have hst := rateSim_state w m hw n
  have hcond : ¬ ((0 : Nat) + w ≤ 0) := by omega
  have hw0 : ¬ (w = 0) := by omega
  simp [rateSim, rateLimitStep, hst, hcond, hw0]

theorem timeOfDayOf_eq_morning (h : Nat) :
    timeOfDayOf h = "morning" ↔ 5 ≤ h ∧ h < 12 := by
  unfold timeOfDayOf
  split_ifs with h1 h2 h3
  · exact iff_of_true rfl h1
  · exact iff_of_false (by decide) h1
  · exact iff_of_false (by decide) h1
  · exact iff_of_false (by decide) h1

theorem timeOfDayOf_eq_afternoon (h : Nat) :
    timeOfDayOf h = "afternoon" ↔ 12 ≤ h ∧ h < 17 := by
  unfold timeOfDayOf
  split_ifs with h1 h2 h3
  · exact iff_of_false (by decide) (by omega)
  · exact iff_of_true rfl h2
  · exact iff_of_false (by decide) (by omega)
  · exact iff_of_false (by decide) (by omega)

theorem timeOfDayOf_eq_evening (h : Nat) :
    timeOfDayOf h = "evening" ↔ 17 ≤ h ∧ h < 21 := by
  unfold timeOfDayOf
  split_ifs with h1 h2 h3
  · exact iff_of_false (by decide) (by omega)
  · exact iff_of_false (by decide) (by omega)
  · exact iff_of_true rfl h3
  · exact iff_of_false (by decide) (by omega)

theorem timeOfDayOf_eq_night (h : Nat) :
    timeOfDayOf h = "night" ↔ h < 5 ∨ 21 ≤ h := by
  unfold timeOfDayOf
  split_ifs with h1 h2 h3
  · exact iff_of_false (by decide) (by omega)
  · exact iff_of_false (by decide) (by omega)
  · exact iff_of_false (by decide) (by omega)
  · exact iff_of_true rfl (by omega)

theorem seasonOf_eq_spring (m : Nat) :
    seasonOf m = "spring" ↔ 3 ≤ m ∧ m ≤ 5 := by
  unfold seasonOf
  split_ifs with h1 h2 h3
  · exact iff_of_true rfl h1
  · exact iff_of_false (by decide) h1
  · exact iff_of_false (by decide) h1
  · exact iff_of_false (by decide) h1

theorem seasonOf_eq_summer (m : Nat) :
    seasonOf m = "summer" ↔ 6 ≤ m ∧ m ≤ 8 := by
  unfold seasonOf
  split_ifs with h1 h2 h3
  · exact iff_of_false (by decide) (by omega)
  · exact iff_of_true rfl h2
  · exact iff_of_false (by decide) (by omega)
  · exact iff_of_false (by decide) (by omega)

theorem seasonOf_eq_autumn (m : Nat) :
    seasonOf m = "autumn" ↔ 9 ≤ m ∧ m ≤ 11 := by
  unfold seasonOf
  split_ifs with h1 h2 h3
  · exact iff_of_false (by decide) (by omega)
  · exact iff_of_false (by decide) (by omega)
  · exact iff_of_true rfl h3
  · exact iff_of_false (by decide) (by omega)

theorem seasonOf_eq_winter (m : Nat) :
    seasonOf m = "winter" ↔ m < 3 ∨ 12 ≤ m := by
  unfold seasonOf
  split_ifs with h1 h2 h3
  · exact iff_of_false (by decide) (by omega)
  · exact iff_of_false (by decide) (by omega)
  · exact iff_of_false (by decide) (by omega)
  · exact iff_of_true rfl (by omega)

/-! ## Claim theorems -/

/-- Claim C1.  When the availability probe fails, `generatePoem` indeed
never issues the real generation call (no prompt is sent), but it does
not return the Fallback Composer's stanza: on the concrete request
(place "Reno, Nevada" at 09:57 on 2025-03-01) it returns the fixed
unavailability message, a string that contains neither the supplied
place nor the date and differs from `generateFallbackPoem`'s template
for the same inputs.  `generateFallbackPoem` is defined in the service
module but no code path reaches it. -/
theorem generatePoem_probe_fail_not_fallback :
    generatePoem ⟨.netError "connection refused", .netError "connection refused"⟩ ⟨[]⟩
        "Reno, Nevada" "09:57" "2025-03-01" = (.ok unavailableMessage, ⟨[]⟩, []) ∧
    ¬ containsSub unavailableMessage "Reno, Nevada" ∧
    ¬ containsSub unavailableMessage "2025-03-01" ∧
    unavailableMessage ≠
      generateFallbackPoem "09:57" "2025-03-01" "Reno, Nevada"
        (getContextInfo "09:57" "2025-03-01") := by
  refine ⟨by decide, ?_, ?_, by decide⟩
  · intro h
    exact absurd (mem_of_containsSub h 'R' (by decide)) (by decide)
  · intro h
    exact absurd (mem_of_containsSub h '2' (by decide)) (by decide)

/-- Claim C2 counterexample.  A request that passes input validation,
with the probe succeeding but the real generation call answering HTTP
503, makes the `POST /api/poem` handler respond 500 — an upstream
generation failure does reach the client as a 500. -/
theorem poemHandler_gen_failure_is_500 :
    (poemHandler "12:00" "2025-01-15"
        ⟨some 39, some (-119), some "09:57", some "2025-03-01"⟩
        .netError ⟨.okBody (some ⟨some "ok"⟩), .httpError 503⟩ ⟨[]⟩).1 =
      ⟨500, .errorDetailsB "Failed to generate poem" "Ollama API returned status: 503"⟩ := by
  decide

/-- Claim C2 (amended).  For every request that passes input validation:
Location Resolver failures never propagate (the handler always proceeds
with the formatted location, degrading to "unknown location"); a failed
availability probe yields HTTP 200 whose poem payload is the fixed
unavailability message, not a fallback poem; a successful generation
yields 200 with the poem; but a thrown Generation Client failure
(upstream unreachable, HTTP error status, or malformed response)
propagates to an HTTP 500 response. -/
theorem poemHandler_absorption (nowTime nowDate : String) (body : PoemRequestBody)
    (geo : GeoFetch) (env : GenEnv) (st : GenState) (time date : String)
    (hval : validatePoemRequest nowTime nowDate body = .proceed time date) :
    (isOllamaAvailable env.probe = false →
      (poemHandler nowTime nowDate body geo env st).1 = ⟨200, .poemB unavailableMessage⟩) ∧
    (∀ p, (generatePoem env st (formatLocationInfo (getLocationInfo geo)) time date).1 = .ok p →
      p ≠ "" →
      (poemHandler nowTime nowDate body geo env st).1 = ⟨200, .poemB p⟩) ∧
    (∀ m, (generatePoem env st (formatLocationInfo (getLocationInfo geo)) time date).1 = .thrown m →
      (poemHandler nowTime nowDate body geo env st).1 =
        ⟨500, .errorDetailsB "Failed to generate poem" m⟩) := by
  refine ⟨?_, ?_, ?_⟩
  · intro hna
    unfold poemHandler
    rw [hval]
    dsimp only
    rw [generatePoem_probe_fail env st (formatLocationInfo (getLocationInfo geo)) time date hna]
    dsimp only
    rw [if_neg (by decide : ¬ (unavailableMessage = ""))]
  · intro p hp hne
    rcases hgen : generatePoem env st (formatLocationInfo (getLocationInfo geo)) time date with
      ⟨r, st', sent⟩
    rw [hgen] at hp
    simp only at hp
    subst hp
    unfold poemHandler
    rw [hval]
    dsimp only
    rw [hgen]
    dsimp only
    rw [if_neg hne]
  · intro m hm
    rcases hgen : generatePoem env st (formatLocationInfo (getLocationInfo geo)) time date with
      ⟨r, st', sent⟩
    rw [hgen] at hm
    simp only at hm
    subst hm
    unfold poemHandler
    rw [hval]
    dsimp only
    rw [hgen]

/-- Claim C2 amended witness: a concrete validated request with a
failing probe receives 200 with the unavailability message as its poem
payload. -/
theorem poemHandler_absorption_witness :
    (poemHandler "12:00" "2025-01-15"
        ⟨some 39, some (-119), some "09:57", some "2025-03-01"⟩
        .netError ⟨.netError "connection refused", .netError "connection refused"⟩ ⟨[]⟩).1 =
      ⟨200, .poemB unavailableMessage⟩ :=
  (poemHandler_absorption "12:00" "2025-01-15"
    ⟨some 39, some (-119), some "09:57", some "2025-03-01"⟩
    .netError ⟨.netError "connection refused", .netError "connection refused"⟩ ⟨[]⟩
    "09:57" "2025-03-01" (by decide)).1 (by decide)

/-- Claim C4.  Latitude 91 and longitude -181 are rejected with 400, and
missing or malformed time/date fields are replaced by the server's
current time/date while valid ones are kept — but latitude 0 / longitude
0, although accepted by `validateCoordinates` itself, are rejected with
400 by the middleware: the JS guard `!latitude || !longitude` treats the
number 0 as falsy.  (The claim says the request must be accepted: the
range check is clearly the intent and the truthiness guard a slip.) -/
theorem validatePoemRequest_behavior :
    validatePoemRequest "10:00" "2025-06-15"
        ⟨some 91, some 10, some "09:57", some "2025-03-01"⟩ =
      .reject 400 "Valid latitude and longitude are required" ∧
    validatePoemRequest "10:00" "2025-06-15"
        ⟨some 10, some (-181), some "09:57", some "2025-03-01"⟩ =
      .reject 400 "Valid latitude and longitude are required" ∧
    validateCoordinates 0 0 = true ∧
    validatePoemRequest "10:00" "2025-06-15"
        ⟨some 0, some 0, some "09:57", some "2025-03-01"⟩ =
      .reject 400 "Valid latitude and longitude are required" ∧
    validatePoemRequest "10:00" "2025-06-15"
        ⟨some 10, some 20, some "9:57", some "2025-3-1"⟩ =
      .proceed "10:00" "2025-06-15" ∧
    validatePoemRequest "10:00" "2025-06-15" ⟨some 10, some 20, none, none⟩ =
      .proceed "10:00" "2025-06-15" ∧
    validatePoemRequest "10:00" "2025-06-15"
        ⟨some 10, some 20, some "09:57", some "2025-03-01"⟩ =
      .proceed "09:57" "2025-03-01" := by
  decide

/-- Claim C9 counterexample.  With the rate-limit environment variables
unset, the configured cap is 100, not 60, so the 61st request within a
60-second window from one client is allowed through rather than
receiving 429. -/
theorem limiter_61st_request_allowed :
    limiterMax none = 100 ∧ limiterMax none ≠ 60 ∧
    (rateSim (limiterWindowMs none) (limiterMax none) 61).2 = true := by
  refine ⟨rfl, by decide, ?_⟩
  rw [show limiterWindowMs none = 60000 from rfl, show limiterMax none = 100 from rfl]
  rw [show (61 : Nat) = 60 + 1 from rfl, rateSim_outcome 60000 100 (by omega) 60]
  decide

/-- Claim C9 (amended).  With the rate-limit environment variables
unset, the limiter uses a fixed window of 60000 ms capped at 100
requests per client identity: every request up to the 100th within the
window is allowed and the 101st receives the 429 response. -/
theorem limiter_default_window_and_cap :
    limiterWindowMs none = 60000 ∧ limiterMax none = 100 ∧
    (rateSim (limiterWindowMs none) (limiterMax none) 100).2 = true ∧
    (rateSim (limiterWindowMs none) (limiterMax none) 101).2 = false := by
  refine ⟨rfl, rfl, ?_, ?_⟩
  · rw [show limiterWindowMs none = 60000 from rfl, show limiterMax none = 100 from rfl]
    rw [show (100 : Nat) = 99 + 1 from rfl, rateSim_outcome 60000 100 (by omega) 99]
    decide
  · rw [show limiterWindowMs none = 60000 from rfl, show limiterMax none = 100 from rfl]
    rw [show (101 : Nat) = 100 + 1 from rfl, rateSim_outcome 60000 100 (by omega) 100]
    decide

/-- Claim C3.  With generation available, once a first `generatePoem`
call has returned a poem normally, a second call with the identical
(location, time, date) triple returns the byte-identical poem text,
leaves the cache unchanged, and sends no prompt to the generation
endpoint: the composite key hits the poem cache (whose entries never
expire — the configured TTL is unused). -/
theorem generatePoem_cache_idempotent (env : GenEnv) (st : GenState)
    (location time date p : String) (st' : GenState) (sent : List String)
    (havail : isOllamaAvailable env.probe = true)
    (hfirst : generatePoem env st location time date = (.ok p, st', sent)) :
    generatePoem env st' location time date = (.ok p, st', []) := by
  unfold generatePoem at hfirst ⊢
  rw [havail] at hfirst ⊢
  simp only [Bool.not_true, Bool.false_eq_true, if_false] at hfirst ⊢
  cases hget : mapGet st.poemCache (location ++ "-" ++ time ++ "-" ++ date) with
  | some cached =>
    rw [hget] at hfirst
    simp only [Prod.mk.injEq, GenResult.ok.injEq] at hfirst
    obtain ⟨hp, hst, hsent⟩ := hfirst
    subst hp
    subst hst
    rw [hget]
  | none =>
    rw [hget] at hfirst
    cases hgEnv : env.gen with
    | netError m =>
      rw [hgEnv] at hfirst
      simp at hfirst
    | httpError s =>
      rw [hgEnv] at hfirst
      simp at hfirst
    | okBody parsed =>
      rw [hgEnv] at hfirst
      cases parsed with
      | none => simp at hfirst
      | some data =>
        dsimp only at hfirst
        by_cases hresp : jsTruthyS data.response = true
        · rw [if_pos hresp] at hfirst
          simp only [Prod.mk.injEq, GenResult.ok.injEq] at hfirst
          obtain ⟨hp, hst, hsent⟩ := hfirst
          subst hp
          rw [← hst]
          dsimp only
          rw [mapGet_mapSet_self]
        · rw [if_neg hresp] at hfirst
          simp at hfirst

/-- Claim C3 witness: a concrete first call that generated and cached a
poem, followed by the identical call returning the identical text with
no prompt sent. -/
theorem generatePoem_cache_idempotent_witness :
    generatePoem ⟨.okBody (some ⟨some "ok"⟩), .okBody (some ⟨some " A poem "⟩)⟩
        ⟨[("Reno, Nevada-09:57-2025-03-01", "A poem")]⟩ "Reno, Nevada" "09:57" "2025-03-01" =
      (.ok "A poem", ⟨[("Reno, Nevada-09:57-2025-03-01", "A poem")]⟩, []) :=
  generatePoem_cache_idempotent
    ⟨.okBody (some ⟨some "ok"⟩), .okBody (some ⟨some " A poem "⟩)⟩ ⟨[]⟩
    "Reno, Nevada" "09:57" "2025-03-01" "A poem"
    ⟨[("Reno, Nevada-09:57-2025-03-01", "A poem")]⟩
    [buildPrompt "Reno, Nevada" "09:57" "2025-03-01"]
    (by decide) (by decide)

/-- Claim C5 counterexample.  On a failed resolution (network error,
nothing cached) the location resolver `getLocationName` returns `null`,
not the sentinel string "unknown location": the sentinel substitution
does not happen inside the resolver. -/
theorem getLocationName_failure_returns_null :
    (getLocationName .netError ⟨[]⟩ 1 1).1 = none ∧
    (getLocationName .netError ⟨[]⟩ 1 1).1 ≠ some "unknown location" := by
  exact ⟨by decide, by decide⟩

/-- Claim C5 (amended).  `getLocationName` returns either a resolved
place string or `null` (it catches every network/parse error rather
than raising); a failed resolution is never written to the location
cache — the state is returned unchanged — so a later retry can succeed;
and the sentinel "unknown location" is what the server-side formatter
produces from a failed lookup.  (The hypothesis that the cache holds no
empty values is an invariant: only non-empty names are ever inserted.) -/
theorem getLocationName_contract (env : GeoFetch) (st : LocState) (lat lon : ℚ)
    (hclean : ∀ kv ∈ st.locationNameCache, kv.2 ≠ "") :
    ((getLocationName env st lat lon).1 = none → (getLocationName env st lat lon).2 = st) ∧
    (∀ s, (getLocationName env st lat lon).1 = some s → s ≠ "") ∧
    formatLocationInfo (getLocationInfo .netError) = "unknown location" := by
  unfold getLocationName
  dsimp only
  cases hget : mapGet st.locationNameCache (toFixed2 lat ++ "," ++ toFixed2 lon) with
  | some cached =>
    refine ⟨?_, ?_, by decide⟩
    · intro h
      simp at h
    · intro s hs
      simp only [Option.some.injEq] at hs
      subst hs
      exact hclean _ (mapGet_mem hget)
  | none =>
    cases env with
    | netError =>
      exact ⟨fun _ => rfl, fun s hs => by simp at hs, by decide⟩
    | httpError s0 =>
      exact ⟨fun _ => rfl, fun s hs => by simp at hs, by decide⟩
    | okBody parsed =>
      cases parsed with
      | none =>
        exact ⟨fun _ => rfl, fun s hs => by simp at hs, by decide⟩
      | some data =>
        dsimp only
        split_ifs with hne
        · refine ⟨fun h => by simp at h, ?_, by decide⟩
          intro s hs
          simp only [Option.some.injEq] at hs
          subst hs
          exact hne
        · exact ⟨fun _ => rfl, fun s hs => by simp at hs, by decide⟩

/-- Claim C5 amended witness: a concrete failed resolution leaves the
(empty) cache unchanged, and the server formatter turns the failure into
the sentinel. -/
theorem getLocationName_contract_witness :
    (getLocationName .netError ⟨[]⟩ 1 1).2 = ⟨[]⟩ ∧
    formatLocationInfo (getLocationInfo .netError) = "unknown location" :=
  ⟨(getLocationName_contract .netError ⟨[]⟩ 1 1 (by simp)).1 (by decide),
   (getLocationName_contract .netError ⟨[]⟩ 1 1 (by simp)).2.2⟩

theorem jsOrS_of_falsy {o : Option String} (d : String) (h : jsTruthyS o = false) :
    jsOrS o d = d := by
  cases o with
  | none => rfl
  | some s =>
    have hs : s = "" := by
      by_contra hne
      simp [jsTruthyS, hne] at h
    simp [jsOrS, hs]

/-- Claim C6 counterexample.  For a geocoding address with only
{county: "Washoe County", state: "Nevada"}, the claimed rule (primary
name from {city, town, village, county}, then state) gives
"Washoe County, Nevada", but the server's `formatLocationInfo` never
uses county as a primary name: it returns just "Nevada". -/
theorem formatLocationInfo_not_claimed_rule :
    formatLocationInfo
        (some ⟨some ⟨none, none, none, some "Washoe County", some "Nevada", none⟩⟩) =
      "Nevada" ∧
    claimedPlaceName ⟨none, none, none, some "Washoe County", some "Nevada", none⟩ =
      "Washoe County, Nevada" ∧
    formatLocationInfo
        (some ⟨some ⟨none, none, none, some "Washoe County", some "Nevada", none⟩⟩) ≠
      claimedPlaceName ⟨none, none, none, some "Washoe County", some "Nevada", none⟩ := by
  exact ⟨by decide, by decide, by decide⟩

/-- Claim C6 (amended).  The resolved place name takes the first present
of {city, town, village} as the primary part, then state or — when state
is absent — county as the second part, then country whenever present,
joined by a comma and space.  For {city: "Reno", state: "Nevada"} the
place resolves to "Reno, Nevada", and on a cache miss with generation
available the prompt sent for the request at 09:57 on 2025-03-01
contains "Reno, Nevada at 09:57 on 2025-03-01". -/
theorem formatLocationInfo_amended_rule :
    formatLocationInfo (some ⟨some ⟨some "Reno", none, none, none, some "Nevada", none⟩⟩) =
      "Reno, Nevada" ∧
    (∀ env st, isOllamaAvailable env.probe = true →
      mapGet st.poemCache "Reno, Nevada-09:57-2025-03-01" = none →
      (generatePoem env st "Reno, Nevada" "09:57" "2025-03-01").2.2 =
        [buildPrompt "Reno, Nevada" "09:57" "2025-03-01"]) ∧
    containsSub (buildPrompt "Reno, Nevada" "09:57" "2025-03-01")
      "Reno, Nevada at 09:57 on 2025-03-01" ∧
    (∀ a : Address, jsTruthyS a.city = true → jsTruthyS a.state = true →
      jsTruthyS a.country = true →
      formatLocationInfo (some ⟨some a⟩) =
        joinParts [a.city.getD "", a.state.getD "", a.country.getD ""]) ∧
    (∀ a : Address, jsTruthyS a.city = false → jsTruthyS a.town = false →
      jsTruthyS a.village = false → jsTruthyS a.county = true →
      jsTruthyS a.state = false → jsTruthyS a.country = false →
      formatLocationInfo (some ⟨some a⟩) = a.county.getD "") := by
  refine ⟨by decide, ?_, ?_, ?_, ?_⟩
  · intro env st havail hmiss
    have hmiss' : mapGet st.poemCache
        ("Reno, Nevada" ++ "-" ++ "09:57" ++ "-" ++ "2025-03-01") = none := hmiss
    unfold generatePoem
    rw [havail]
    simp only [Bool.not_true, Bool.false_eq_true, if_false]
    rw [hmiss']
    cases env.gen with
    | netError m => rfl
    | httpError s => rfl
    | okBody parsed =>
      cases parsed with
      | none => rfl
      | some data =>
        dsimp only
        split_ifs <;> rfl
  · exact ⟨"Write a poem about ",
      ". The poem should be evocative and reflect the mood of the time and place.", by decide⟩
  · intro a hc hs hk
    unfold formatLocationInfo
    simp only [hc, hs, hk, Bool.true_or, Bool.or_true, if_true]
    rw [jsOrS_of_truthy _ hc, jsOrS_of_truthy _ hs]
    rfl
  · intro a h1 h2 h3 h4 h5 h6
    unfold formatLocationInfo
    simp only [h1, h2, h3, h4, h5, h6, Bool.or_self, Bool.false_or, Bool.or_false,
      Bool.or_true, if_true, if_false, Bool.false_eq_true]
    rw [jsOrS_of_falsy _ h5]
    rfl

/-- Claim C6 amended witness: a concrete cache-miss call sends exactly
the constructed prompt, and an address with only a county resolves to
the bare county name. -/
theorem formatLocationInfo_amended_rule_witness :
    (generatePoem ⟨.okBody (some ⟨some "ok"⟩), .httpError 500⟩ ⟨[]⟩
        "Reno, Nevada" "09:57" "2025-03-01").2.2 =
      [buildPrompt "Reno, Nevada" "09:57" "2025-03-01"] ∧
    formatLocationInfo (some ⟨some ⟨none, none, none, some "Washoe County", none, none⟩⟩) =
      "Washoe County" :=
  ⟨formatLocationInfo_amended_rule.2.1 ⟨.okBody (some ⟨some "ok"⟩), .httpError 500⟩ ⟨[]⟩
      (by decide) (by decide),
   formatLocationInfo_amended_rule.2.2.2.2 ⟨none, none, none, some "Washoe County", none, none⟩
      (by decide) (by decide) (by decide) (by decide) (by decide) (by decide)⟩

/-- Claim C7.  Whenever both the time and the date split into numeric
components, the derived context classifies the hour into exactly the
buckets [5,12) morning, [12,17) afternoon, [17,21) evening, otherwise
night, and the month into [3,5] spring, [6,8] summer, [9,11] autumn,
otherwise winter; and whenever either string fails to split into numeric
components, `getContextInfo` returns the null sentinel instead of
raising. -/
theorem getContextInfo_buckets :
    (∀ t d hour minute year month day,
      parseTimeComponents t = some (hour, minute) →
      parseDateComponents d = some (year, month, day) →
      ∃ ci, getContextInfo t d = some ci ∧
        (ci.timeOfDay = "morning" ↔ 5 ≤ hour ∧ hour < 12) ∧
        (ci.timeOfDay = "afternoon" ↔ 12 ≤ hour ∧ hour < 17) ∧
        (ci.timeOfDay = "evening" ↔ 17 ≤ hour ∧ hour < 21) ∧
        (ci.timeOfDay = "night" ↔ hour < 5 ∨ 21 ≤ hour) ∧
        (ci.season = "spring" ↔ 3 ≤ month ∧ month ≤ 5) ∧
        (ci.season = "summer" ↔ 6 ≤ month ∧ month ≤ 8) ∧
        (ci.season = "autumn" ↔ 9 ≤ month ∧ month ≤ 11) ∧
        (ci.season = "winter" ↔ month < 3 ∨ 12 ≤ month)) ∧
    (∀ t d, parseTimeComponents t = none ∨ parseDateComponents d = none →
      getContextInfo t d = none) := by
  constructor
  · intro t d hour minute year month day ht hd
    refine ⟨⟨timeOfDayOf hour, seasonOf month⟩, ?_, timeOfDayOf_eq_morning hour,
      timeOfDayOf_eq_afternoon hour, timeOfDayOf_eq_evening hour, timeOfDayOf_eq_night hour,
      seasonOf_eq_spring month, seasonOf_eq_summer month, seasonOf_eq_autumn month,
      seasonOf_eq_winter month⟩
    unfold getContextInfo
    rw [ht, hd]
  · intro t d hbad
    unfold getContextInfo
    rcases hbad with h | h
    · rw [h]
    · rw [h]
      cases hpt : parseTimeComponents t with
      | none => rfl
      | some pr =>
        rcases pr with ⟨h1, m1⟩
        rfl

/-- Claim C7 witness: "09:57" on "2025-03-01" derives morning/spring;
non-numeric components derive the null context. -/
theorem getContextInfo_buckets_witness :
    getContextInfo "09:57" "2025-03-01" = some ⟨"morning", "spring"⟩ ∧
    getContextInfo "ab:cd" "2025-03-01" = none := by
  constructor
  · obtain ⟨ci, hci, hm, -, -, -, hsp, -, -, -⟩ :=
      getContextInfo_buckets.1 "09:57" "2025-03-01" 9 57 2025 3 1 (by decide) (by decide)
    have h1 : ci.timeOfDay = "morning" := hm.mpr (by omega)
    have h2 : ci.season = "spring" := hsp.mpr (by omega)
    rw [hci]
    cases ci
    simp_all
  · exact getContextInfo_buckets.2 "ab:cd" "2025-03-01" (Or.inl (by decide))

/-- Claim C8 counterexample.  A generation response whose `response`
field is the single space " " passes the non-empty check (" " is truthy)
and is trimmed to the empty string: the client returns the empty poem
"" to its caller rather than surfacing a failure. -/
theorem generatePoem_whitespace_empty_poem :
    (generatePoem ⟨.okBody (some ⟨some "ok"⟩), .okBody (some ⟨some " "⟩)⟩ ⟨[]⟩
        "Reno, Nevada" "09:57" "2025-03-01").1 = .ok "" := by
  decide

/-- Claim C8 (amended).  With the probe succeeding and a cache miss, an
HTTP error status, a JSON parse failure, and a missing-or-empty
generated-text field each surface to the caller as a thrown error with a
distinct message, and a returned poem is the generated text with
surrounding whitespace trimmed — but a whitespace-only generated field
passes the emptiness check and yields the empty poem string after
trimming, so the client is not empty-free. -/
theorem generatePoem_failure_modes (env : GenEnv) (st : GenState)
    (location time date : String)
    (havail : isOllamaAvailable env.probe = true)
    (hmiss : mapGet st.poemCache (location ++ "-" ++ time ++ "-" ++ date) = none) :
    (∀ s, env.gen = .httpError s →
      (generatePoem env st location time date).1 =
        .thrown ("Ollama API returned status: " ++ toString s)) ∧
    (env.gen = .okBody none →
      (generatePoem env st location time date).1 =
        .thrown "Failed to parse Ollama API response") ∧
    (∀ r, env.gen = .okBody (some ⟨r⟩) → jsTruthyS r = false →
      (generatePoem env st location time date).1 =
        .thrown "Unexpected Ollama API response format") ∧
    (∀ r, env.gen = .okBody (some ⟨some r⟩) → r ≠ "" →
      (generatePoem env st location time date).1 = .ok (jsTrim r)) ∧
    (∀ s : Nat,
      ("Ollama API returned status: " ++ toString s) ≠ "Failed to parse Ollama API response" ∧
      ("Ollama API returned status: " ++ toString s) ≠ "Unexpected Ollama API response format") ∧
    ("Failed to parse Ollama API response" : String) ≠ "Unexpected Ollama API response format" := by
  refine ⟨?_, ?_, ?_, ?_, ?_, by decide⟩
  · intro s hg
    unfold generatePoem
    rw [havail]
    simp only [Bool.not_true, Bool.false_eq_true, if_false]
    rw [hmiss, hg]
  · intro hg
    unfold generatePoem
    rw [havail]
    simp only [Bool.not_true, Bool.false_eq_true, if_false]
    rw [hmiss, hg]
  · intro r hg hf
    unfold generatePoem
    rw [havail]
    simp only [Bool.not_true, Bool.false_eq_true, if_false]
    rw [hmiss, hg]
    dsimp only
    rw [if_neg (by rw [hf]; exact Bool.false_ne_true)]
  · intro r hg hr
    unfold generatePoem
    rw [havail]
    simp only [Bool.not_true, Bool.false_eq_true, if_false]
    rw [hmiss, hg]
    dsimp only
    rw [if_pos (by simp [jsTruthyS, hr])]
    rfl
  · intro s
    exact ⟨httpMsg_ne _ _ (by decide), httpMsg_ne _ _ (by decide)⟩

/-- Claim C8 amended witness: a concrete HTTP 404 surfaces as the status
error, and a concrete padded response " hi " comes back trimmed. -/
theorem generatePoem_failure_modes_witness :
    (generatePoem ⟨.okBody (some ⟨some "ok"⟩), .httpError 404⟩ ⟨[]⟩ "L" "T" "D").1 =
      .thrown ("Ollama API returned status: " ++ toString 404) ∧
    (generatePoem ⟨.okBody (some ⟨some "ok"⟩), .okBody (some ⟨some " hi "⟩)⟩ ⟨[]⟩
        "L" "T" "D").1 = .ok (jsTrim " hi ") :=
  ⟨(generatePoem_failure_modes ⟨.okBody (some ⟨some "ok"⟩), .httpError 404⟩ ⟨[]⟩ "L" "T" "D"
      (by decide) (by decide)).1 404 rfl,
   (generatePoem_failure_modes ⟨.okBody (some ⟨some "ok"⟩), .okBody (some ⟨some " hi "⟩)⟩ ⟨[]⟩
      "L" "T" "D" (by decide) (by decide)).2.2.2.1 " hi " rfl (by decide)⟩

/-- Claim C10.  For every `GET /api/location` request whose coordinates
pass the validation guard, the handler's 500 branch is unreachable for
geocoding failures: the response status is 200 for every geocode
outcome, and when the upstream fails (caught, `null` returned) or
returns a body with no address or no usable address fields, the body is
exactly {locationName: "unknown location"}. -/
theorem locationHandler_no_500 (latitude longitude : QueryNum) (geo : GeoFetch)
    (hval : (jsFalsyQ latitude || jsFalsyQ longitude ||
      !validateCoordinatesQ latitude longitude) = false) :
    (locationHandler latitude longitude geo).status = 200 ∧
    ((getLocationInfo geo = none ∨
      getLocationInfo geo = some ⟨none⟩ ∨
      (∃ a, getLocationInfo geo = some ⟨some a⟩ ∧ geoNoUsableFields a = true)) →
      locationHandler latitude longitude geo = ⟨200, .locationB "unknown location"⟩) := by
  have hred : locationHandler latitude longitude geo =
      ⟨200, .locationB (formatLocationInfo (getLocationInfo geo))⟩ := by
    unfold locationHandler
    rw [hval]
    rfl
  refine ⟨by rw [hred], ?_⟩
  intro hbad
  rw [hred]
  have hfmt : formatLocationInfo (getLocationInfo geo) = "unknown location" := by
    rcases hbad with h | h | ⟨a, h, ha⟩
    · rw [h]
      rfl
    · rw [h]
      rfl
    · rw [h]
      simp only [geoNoUsableFields, Bool.not_eq_true', Bool.or_eq_false_iff] at ha
      unfold formatLocationInfo
      simp [ha.1.1.1.1.1, ha.1.1.1.1.2, ha.1.1.1.2, ha.1.1.2, ha.1.2, ha.2]
  rw [hfmt]

/-- Claim C10 witness: valid coordinates with an unreachable geocoding
upstream get 200 and the sentinel location name. -/
theorem locationHandler_no_500_witness :
    locationHandler (.num 39) (.num (-119)) .netError =
      ⟨200, .locationB "unknown location"⟩ :=
  (locationHandler_no_500 (.num 39) (.num (-119)) .netError (by decide)).2 (Or.inl rfl)

end PoemApp
